import Mathlib

/-!
Shallow embedding of the FujiNet Macintosh floppy serial bridge
(src/lib/device/mac/floppy_serial_bridge.cpp together with the loopback
channel handler in src/lib/device/mac/floppy_serial_handler.cpp).

Byte buffers are modelled as `List Nat`, each cell holding one byte (the
C buffers have type `uint8_t *`).  The process-wide globals
(`mac_serial_state`, `mac_serial_knock`, `mac_serial_drive`,
`mac_serial_sector`, and the static loopback fifo living inside
`mac_serial_handler`) are threaded explicitly through a
`MacSerialGlobals` record, and every C function becomes a pure function
from its inputs and the pre-state to its outputs and the post-state.
-/

/-- The 4 ASCII bytes of MAC_SERIAL_REQUEST_TAG, the string NDEV. -/
def MAC_SERIAL_REQUEST_TAG : List Nat := [78, 68, 69, 86]

/-- The 4 ASCII bytes of MAC_SERIAL_REPLY_TAG, the string FUJI. -/
def MAC_SERIAL_REPLY_TAG : List Nat := [70, 85, 74, 73]

/-- MAC_SERIAL_HEADER_LEN: the 12-byte frame header size. -/
def MAC_SERIAL_HEADER_LEN : Nat := 12

/-- MAC_SERIAL_NEGATIVE_LBA, the reserved out-of-band sentinel sector. -/
def MAC_SERIAL_NEGATIVE_LBA : Nat := 0x007FFFFF

/-- MAC_SERIAL_KNOCK_SEQ: the fixed 5-element knock address sequence. -/
def mac_serial_knock_sequence : List Nat := [0, 70, 85, 74, 73]

/-- The `mac_serial_mode` enum from floppy_serial.h. -/
inductive mac_serial_mode
  | MAC_SERIAL_READ
  | MAC_SERIAL_WRITE
deriving DecidableEq

/-- The anonymous state enum of floppy_serial_bridge.cpp (the type of the
global variable `mac_serial_state`). -/
inductive MacSerialPhase
  | MAC_SERIAL_WAIT_KNOCK
  | MAC_SERIAL_WAIT_MAGIC_WRITE
  | MAC_SERIAL_WAIT_MAGIC_READ
  | MAC_SERIAL_WAIT_MAGIC_SECTOR
deriving DecidableEq

/-- Overwrite the bytes of `buff` starting at offset `off` with `data`
(the effect of a `memcpy` into `buff + off`). -/
def writeAt (buff : List Nat) (off : Nat) (data : List Nat) : List Nat :=
  buff.take off ++ data ++ buff.drop (off + data.length)

/-- mac_serial_put_header: writes the 12 header bytes at the front of
`buff`: reply tag FUJI, two zero bytes, the 16-bit length big-endian
(UINT16_HI_BYTE then UINT16_LO_BYTE), four zero bytes.  The remaining
bytes of `buff` are untouched. -/
def mac_serial_put_header (buff : List Nat) (len : Nat) : List Nat :=
  [70, 85, 74, 73, 0, 0, len / 2 ^ 8 % 2 ^ 8, len % 2 ^ 8, 0, 0, 0, 0] ++ buff.drop 12

/-- mac_serial_get_header: `memcmp(buff, MAC_SERIAL_REQUEST_TAG, 4)` must
match, and then the length is `CHARS_TO_UINT16(buff[6], buff[7])`, i.e.
the big-endian 16-bit value at offset 6.  The C function returns a bool
and stores the length through a pointer; here it returns `Option Nat`. -/
def mac_serial_get_header (buff : List Nat) : Option Nat :=
  if buff.take 4 = MAC_SERIAL_REQUEST_TAG then
    some (buff.getD 6 0 % 2 ^ 8 * 2 ^ 8 + buff.getD 7 0 % 2 ^ 8)
  else
    none

/-- mac_serial_detect_knock_sequence, acting on the global counter
`mac_serial_knock` passed and returned explicitly.  Returns the new
counter and whether the full 5-element sequence just completed. -/
def mac_serial_detect_knock_sequence (knock : Nat) (sector : Nat) : Nat × Bool :=
  if sector = mac_serial_knock_sequence.getD knock 0 then
    if knock + 1 = mac_serial_knock_sequence.length then (0, true)
    else (knock + 1, false)
  else
    (0, false)

/-- The magic-block validation loop inside the MAC_SERIAL_WAIT_MAGIC_WRITE
case of is_mac_serial_io: checks that the 512-byte block consists of
repetitions of the request tag (`magic[i & 3]`).  In the C source the
result only selects a debug message and is never used to reject the
write. -/
def mac_serial_magic_block_ok (blk : List Nat) : Bool :=
  (List.range 512).all fun i => blk.getD i 0 = MAC_SERIAL_REQUEST_TAG.getD (i % 4) 0

/-- Capacity of the FifoBuffer byte array in floppy_serial_handler.cpp. -/
def FIFO_CAPACITY : Nat := 2000

/-- fifoPutData: appends the `len` bytes of `buf` when they fit within
the capacity, otherwise leaves the fifo unchanged (overflow diagnostic
only).  The fifo is modelled as the list of its live bytes, so
`fb->fifoLen` is the list length and `buf`/`len` collapse into one
list argument holding exactly the bytes the C call would copy. -/
def fifoPutData (fifo : List Nat) (buf : List Nat) : List Nat :=
  if fifo.length + buf.length ≤ FIFO_CAPACITY then fifo ++ buf else fifo

/-- fifoGetData: removes `dataToReturn = MIN(fifoLen, len)` bytes from
the front.  Returns the bytes copied into the caller's buffer and the
remaining fifo contents (the C function shifts the remainder forward and
returns the count, which is the length of the first component). -/
def fifoGetData (fifo : List Nat) (len : Nat) : List Nat × List Nat :=
  (fifo.take (min fifo.length len), fifo.drop (min fifo.length len))

/-- fifoBytesAvailable: the live length of the fifo. -/
def fifoBytesAvailable (fifo : List Nat) : Nat :=
  fifo.length

/-- mac_serial_handler in its compiled MAC_SERIAL_LOOPBACK_TEST
configuration.  `buffer` holds the bytes the caller's pointer addresses.
Returns (return value, new buffer contents, new fifo contents): on read,
the return value is the byte count available before draining and the
buffer receives the drained bytes at its front; on write, the first
`buffer_size` bytes of the buffer are enqueued and 0 is returned. -/
def mac_serial_handler (fifo : List Nat) (buffer : List Nat) (buffer_size : Nat)
    (mode : mac_serial_mode) : Nat × List Nat × List Nat :=
  match mode with
  | .MAC_SERIAL_READ =>
      let availData := fifoBytesAvailable fifo
      let r := fifoGetData fifo buffer_size
      (availData, writeAt buffer 0 r.1, r.2)
  | .MAC_SERIAL_WRITE =>
      (0, buffer, fifoPutData fifo (buffer.take buffer_size))

/-- Result record of mac_serial_magic_sector_io: the tag buffer, the
block buffer, the handler fifo, and the returned bool. -/
structure MagicIOResult where
  tag : List Nat
  blk : List Nat
  fifo : List Nat
  handled : Bool
deriving DecidableEq

/-- mac_serial_magic_sector_io: processes reads and writes to the magic
sector.  Read: the handler fills `blkPtr + 12` with up to 500 bytes and
its return value becomes the header length written at the front of the
block.  Write: the header is taken from the tag buffer when it decodes
validly, otherwise from the leading 12 bytes of the block; with neither,
the request is refused.  The decoded length is clamped to
`512 - headerSize` and the payload after the chosen header is passed to
the handler. -/
def mac_serial_magic_sector_io (tagPtr blkPtr fifo : List Nat) (mode : mac_serial_mode) :
    MagicIOResult :=
  match mode with
  | .MAC_SERIAL_READ =>
      let r := mac_serial_handler fifo (blkPtr.drop MAC_SERIAL_HEADER_LEN)
        (512 - MAC_SERIAL_HEADER_LEN) .MAC_SERIAL_READ
      ⟨tagPtr, mac_serial_put_header (writeAt blkPtr MAC_SERIAL_HEADER_LEN r.2.1) r.1,
        r.2.2, true⟩
  | .MAC_SERIAL_WRITE =>
      match mac_serial_get_header tagPtr with
      | some len =>
          let len2 := if len > 512 then 512 else len
          let r := mac_serial_handler fifo blkPtr len2 .MAC_SERIAL_WRITE
          ⟨tagPtr, blkPtr, r.2.2, true⟩
      | none =>
          match mac_serial_get_header blkPtr with
          | some len =>
              let len2 := if len > 512 - MAC_SERIAL_HEADER_LEN
                then 512 - MAC_SERIAL_HEADER_LEN else len
              let r := mac_serial_handler fifo (blkPtr.drop MAC_SERIAL_HEADER_LEN)
                len2 .MAC_SERIAL_WRITE
              ⟨tagPtr, blkPtr, r.2.2, true⟩
          | none => ⟨tagPtr, blkPtr, fifo, false⟩

/-- The process-wide mutable globals of the bridge: `mac_serial_state`,
`mac_serial_knock`, `mac_serial_drive`, `mac_serial_sector`, and the
static loopback fifo of mac_serial_handler. -/
structure MacSerialGlobals where
  state : MacSerialPhase
  knock : Nat
  drive : Nat
  sector : Nat
  fifo : List Nat
deriving DecidableEq

/-- Initial values of the globals: the state enum and the counters are
zero-initialised, the fifo starts empty. -/
def mac_serial_init : MacSerialGlobals :=
  ⟨.MAC_SERIAL_WAIT_KNOCK, 0, 0, 0, []⟩

/-- Result record of is_mac_serial_io: post-state of the globals, the
tag buffer, the block buffer, and the returned bool. -/
structure SerialStepResult where
  g : MacSerialGlobals
  tag : List Nat
  blk : List Nat
  handled : Bool
deriving DecidableEq

/-- is_mac_serial_io: one call of the bridge entry point on the current
globals and a sector access (drive, sector, tag buffer, block buffer,
mode).  Mirrors the C control flow: sentinel short-circuit, knock
detection, then the switch over `mac_serial_state`. -/
def is_mac_serial_io (g : MacSerialGlobals) (drive sector : Nat)
    (tagPtr blkPtr : List Nat) (mode : mac_serial_mode) : SerialStepResult :=
  if sector = MAC_SERIAL_NEGATIVE_LBA then
    let r := mac_serial_magic_sector_io tagPtr blkPtr g.fifo mode
    let st := if g.state ≠ .MAC_SERIAL_WAIT_MAGIC_SECTOR
      then MacSerialPhase.MAC_SERIAL_WAIT_KNOCK else g.state
    ⟨⟨st, g.knock, g.drive, g.sector, r.fifo⟩, r.tag, r.blk, true⟩
  else
    let kd := mac_serial_detect_knock_sequence g.knock sector
    let g1 : MacSerialGlobals :=
      if kd.2 then ⟨.MAC_SERIAL_WAIT_MAGIC_WRITE, kd.1, drive, 0, g.fifo⟩
      else ⟨g.state, kd.1, g.drive, g.sector, g.fifo⟩
    let tag1 := if kd.2 then mac_serial_put_header tagPtr 0 else tagPtr
    match g1.state with
    | .MAC_SERIAL_WAIT_KNOCK => ⟨g1, tag1, blkPtr, false⟩
    | .MAC_SERIAL_WAIT_MAGIC_WRITE =>
        if mode = .MAC_SERIAL_WRITE ∧ drive = g1.drive then
          ⟨⟨.MAC_SERIAL_WAIT_MAGIC_READ, g1.knock, g1.drive, sector, g1.fifo⟩,
            tag1, blkPtr, true⟩
        else ⟨g1, tag1, blkPtr, false⟩
    | .MAC_SERIAL_WAIT_MAGIC_READ =>
        if mode = .MAC_SERIAL_READ ∧ drive = g1.drive ∧ sector = g1.sector then
          ⟨⟨.MAC_SERIAL_WAIT_MAGIC_SECTOR, g1.knock, g1.drive, g1.sector, g1.fifo⟩,
            mac_serial_put_header tag1 8,
            writeAt blkPtr 0 [70, 85, 74, 73,
              g1.sector / 2 ^ 24 % 2 ^ 8, g1.sector / 2 ^ 16 % 2 ^ 8,
              g1.sector / 2 ^ 8 % 2 ^ 8, g1.sector % 2 ^ 8],
            true⟩
        else ⟨g1, tag1, blkPtr, false⟩
    | .MAC_SERIAL_WAIT_MAGIC_SECTOR =>
        if drive = g1.drive ∧ sector = g1.sector then
          let r := mac_serial_magic_sector_io tag1 blkPtr g1.fifo mode
          ⟨⟨g1.state, g1.knock, g1.drive, g1.sector, r.fifo⟩, r.tag, r.blk, r.handled⟩
        else ⟨g1, tag1, blkPtr, false⟩

/-- Test harness: present a list of sector addresses as consecutive
read accesses on one drive (with empty buffers) and return the final
globals. -/
def runSectors (g : MacSerialGlobals) (drive : Nat) (sectors : List Nat) :
    MacSerialGlobals :=
  sectors.foldl (fun st sec => (is_mac_serial_io st drive sec [] [] .MAC_SERIAL_READ).g) g

/-- A sector that differs from the next expected knock element resets
the counter to 0 and does not complete the sequence. -/
theorem detect_mismatch (k sector : Nat)
    (h : sector ≠ mac_serial_knock_sequence.getD k 0) :
    mac_serial_detect_knock_sequence k sector = (0, false) := by
  unfold mac_serial_detect_knock_sequence
  rw [if_neg h]

/-- Claim C1, counterexample: decoding the buffer produced by encoding
length 0 does not yield a valid result recovering 0 — it is invalid,
because mac_serial_put_header writes the reply tag FUJI while
mac_serial_get_header checks for the request tag NDEV. -/
theorem claim_C1_counterexample :
    mac_serial_get_header (mac_serial_put_header (List.replicate 12 0) 0) ≠ some 0 := by
  decide

/-- Claim C1, amended: for every length below 2^16, decoding the encoded
buffer reports invalid (encode writes the reply marker, decode expects
the request marker); the 16-bit big-endian length field nevertheless
round-trips exactly — replacing the first four bytes with the request
marker makes decode recover the length. -/
theorem claim_C1_amended (buff : List Nat) (len : Nat) (h : len < 2 ^ 16) :
    mac_serial_get_header (mac_serial_put_header buff len) = none
    ∧ mac_serial_get_header
        (MAC_SERIAL_REQUEST_TAG ++ (mac_serial_put_header buff len).drop 4) = some len := by
  constructor
  · simp [mac_serial_put_header, mac_serial_get_header, MAC_SERIAL_REQUEST_TAG]
  · simp [mac_serial_put_header, mac_serial_get_header, MAC_SERIAL_REQUEST_TAG, List.getD]
    omega

/-- Claim C1, witness: the amended statement evaluated at length 258. -/
theorem claim_C1_witness :
    258 < 2 ^ 16
    ∧ (mac_serial_get_header (mac_serial_put_header (List.replicate 12 0) 258) = none
      ∧ mac_serial_get_header (MAC_SERIAL_REQUEST_TAG
          ++ (mac_serial_put_header (List.replicate 12 0) 258).drop 4) = some 258) :=
  ⟨by decide, claim_C1_amended (List.replicate 12 0) 258 (by decide)⟩

/-- Claim C5: an access at the sentinel address MAC_SERIAL_NEGATIVE_LBA,
in every phase, invokes the channel handler on the buffers and returns
true; afterwards the phase remains Active when it already was Active and
is forced to Idle otherwise. -/
theorem claim_C5 (ph : MacSerialPhase) (k d ms drv : Nat)
    (fifo tagPtr blkPtr : List Nat) (mode : mac_serial_mode) :
    is_mac_serial_io ⟨ph, k, d, ms, fifo⟩ drv MAC_SERIAL_NEGATIVE_LBA tagPtr blkPtr mode
      = ⟨⟨if ph = .MAC_SERIAL_WAIT_MAGIC_SECTOR then ph else .MAC_SERIAL_WAIT_KNOCK,
          k, d, ms, (mac_serial_magic_sector_io tagPtr blkPtr fifo mode).fifo⟩,
        (mac_serial_magic_sector_io tagPtr blkPtr fifo mode).tag,
        (mac_serial_magic_sector_io tagPtr blkPtr fifo mode).blk, true⟩ := by
  cases ph <;> simp [is_mac_serial_io]

/-- Claim C6: in the Idle phase, an access whose sector is neither the
sentinel nor the next expected knock element returns false and leaves
the tag and block buffers unmodified (only the knock counter resets). -/
theorem claim_C6 (k d ms drv sector : Nat) (fifo tagPtr blkPtr : List Nat)
    (mode : mac_serial_mode) (hsec : sector ≠ MAC_SERIAL_NEGATIVE_LBA)
    (hkn : sector ≠ mac_serial_knock_sequence.getD k 0) :
    is_mac_serial_io ⟨.MAC_SERIAL_WAIT_KNOCK, k, d, ms, fifo⟩ drv sector tagPtr blkPtr mode
      = ⟨⟨.MAC_SERIAL_WAIT_KNOCK, 0, d, ms, fifo⟩, tagPtr, blkPtr, false⟩ := by
  simp [is_mac_serial_io, hsec, detect_mismatch k sector hkn]

/-- Claim C6, witness: the Idle no-op evaluated at sector 1 with knock
counter 0. -/
theorem claim_C6_witness :
    (1 : Nat) ≠ MAC_SERIAL_NEGATIVE_LBA
    ∧ (1 : Nat) ≠ mac_serial_knock_sequence.getD 0 0
    ∧ is_mac_serial_io ⟨.MAC_SERIAL_WAIT_KNOCK, 0, 2, 9, []⟩ 3 1 [] [] .MAC_SERIAL_READ
      = ⟨⟨.MAC_SERIAL_WAIT_KNOCK, 0, 2, 9, []⟩, [], [], false⟩ :=
  ⟨by decide, by decide,
    claim_C6 0 2 9 3 1 [] [] [] .MAC_SERIAL_READ (by decide) (by decide)⟩

/-- Claim C9: a write access at sector 73 while the knock counter is 4
completes the knock and is consumed as the magic write in the same call,
in every pre-phase: the phase ends at SectorPending, the magic sector is
recorded as 73, the drive is claimed, the tag buffer receives the
zero-length reply header, and the call returns true. -/
theorem claim_C9 (ph : MacSerialPhase) (d0 ms d : Nat) (fifo tagPtr blkPtr : List Nat) :
    is_mac_serial_io ⟨ph, 4, d0, ms, fifo⟩ d 73 tagPtr blkPtr .MAC_SERIAL_WRITE
      = ⟨⟨.MAC_SERIAL_WAIT_MAGIC_READ, 0, d, 73, fifo⟩,
          mac_serial_put_header tagPtr 0, blkPtr, true⟩ := by
  simp [is_mac_serial_io, mac_serial_detect_knock_sequence, mac_serial_knock_sequence,
    MAC_SERIAL_NEGATIVE_LBA]

/-- The new knock counter produced by a detection step stays below 5
whenever the old counter was below 5. -/
theorem detect_fst_lt (k sector : Nat) (h : k < 5) :
    (mac_serial_detect_knock_sequence k sector).1 < 5 := by
  simp only [mac_serial_detect_knock_sequence, mac_serial_knock_sequence, List.length_cons,
    List.length_nil]
  split_ifs with h1 h2
  · decide
  · show k + 1 < 5
    omega
  · decide

/-- Claim C2, counterexample: after the partial prefix consisting of the
single address 0, presenting the full knock sequence 0,70,85,74,73 does
not reach ClaimedDrive — the first 0 is consumed by the reset without
counting as a fresh first element. -/
theorem claim_C2_counterexample :
    (runSectors (runSectors mac_serial_init 1 [0]) 1 [0, 70, 85, 74, 73]).state
      ≠ .MAC_SERIAL_WAIT_MAGIC_WRITE := by
  decide

/-- Claim C2, amended: from Idle with knock progress 0 the sequence
0,70,85,74,73 reaches ClaimedDrive; a sector differing from the next
expected element resets the counter to 0; and after a nonempty partial
prefix (progress between 1 and 4) one extra presentation of the first
value 0 — consumed by the mismatch reset — followed by the full sequence
reaches ClaimedDrive. -/
theorem claim_C2_amended (k d0 ms d : Nat) (fifo : List Nat) :
    (runSectors ⟨.MAC_SERIAL_WAIT_KNOCK, 0, d0, ms, fifo⟩ d [0, 70, 85, 74, 73]).state
      = .MAC_SERIAL_WAIT_MAGIC_WRITE
    ∧ (∀ k2 sector, sector ≠ mac_serial_knock_sequence.getD k2 0 →
        mac_serial_detect_knock_sequence k2 sector = (0, false))
    ∧ (1 ≤ k → k ≤ 4 →
        (runSectors ⟨.MAC_SERIAL_WAIT_KNOCK, k, d0, ms, fifo⟩ d
            (0 :: [0, 70, 85, 74, 73])).state = .MAC_SERIAL_WAIT_MAGIC_WRITE) := by
  refine ⟨?_, fun k2 sector h => detect_mismatch k2 sector h, ?_⟩
  · simp [runSectors, is_mac_serial_io, mac_serial_detect_knock_sequence,
      mac_serial_knock_sequence, MAC_SERIAL_NEGATIVE_LBA]
  · intro h1 h4
    interval_cases k <;>
      simp [runSectors, is_mac_serial_io, mac_serial_detect_knock_sequence,
        mac_serial_knock_sequence, MAC_SERIAL_NEGATIVE_LBA]

/-- Claim C2, witness: the amended restart property evaluated at knock
progress 2. -/
theorem claim_C2_witness :
    1 ≤ 2 ∧ 2 ≤ 4
    ∧ (runSectors ⟨.MAC_SERIAL_WAIT_KNOCK, 2, 0, 0, []⟩ 1
        (0 :: [0, 70, 85, 74, 73])).state = .MAC_SERIAL_WAIT_MAGIC_WRITE :=
  ⟨by decide, by decide, (claim_C2_amended 2 0 0 1 []).2.2 (by decide) (by decide)⟩

/-- Claim C3: in ClaimedDrive, every write on the claimed drive whose
sector is neither the sentinel nor knock-completing is accepted as the
magic-sector write for every block content (the magic-pattern validation
of mac_serial_magic_block_ok is never enforced): the sector is recorded,
the phase advances to SectorPending, and the call returns true. -/
theorem claim_C3 (k d ms sector : Nat) (fifo tagPtr blkPtr : List Nat)
    (hsec : sector ≠ MAC_SERIAL_NEGATIVE_LBA)
    (hk : (mac_serial_detect_knock_sequence k sector).2 = false) :
    is_mac_serial_io ⟨.MAC_SERIAL_WAIT_MAGIC_WRITE, k, d, ms, fifo⟩ d sector tagPtr blkPtr
        .MAC_SERIAL_WRITE
      = ⟨⟨.MAC_SERIAL_WAIT_MAGIC_READ, (mac_serial_detect_knock_sequence k sector).1,
          d, sector, fifo⟩, tagPtr, blkPtr, true⟩ := by
  simp [is_mac_serial_io, hsec, hk]

/-- Claim C3, witness: a write of a non-magic block [9, 9] at sector 5
on the claimed drive is accepted. -/
theorem claim_C3_witness :
    (5 : Nat) ≠ MAC_SERIAL_NEGATIVE_LBA
    ∧ (mac_serial_detect_knock_sequence 0 5).2 = false
    ∧ is_mac_serial_io ⟨.MAC_SERIAL_WAIT_MAGIC_WRITE, 0, 1, 0, []⟩ 1 5 [] [9, 9]
        .MAC_SERIAL_WRITE
      = ⟨⟨.MAC_SERIAL_WAIT_MAGIC_READ, (mac_serial_detect_knock_sequence 0 5).1, 1, 5, []⟩,
          [], [9, 9], true⟩ :=
  ⟨by decide, by decide, claim_C3 0 1 0 5 [] [] [9, 9] (by decide) (by decide)⟩

/-- Claim C4, counterexample: in SectorPending an access at the sentinel
address — an access other than the matching read — returns true and
forces the phase to Idle, contradicting the claim that any other access
in this phase leaves the phase unchanged and returns false. -/
theorem claim_C4_counterexample :
    ¬ ((is_mac_serial_io ⟨.MAC_SERIAL_WAIT_MAGIC_READ, 0, 1, 5, []⟩ 1
          MAC_SERIAL_NEGATIVE_LBA [] [] .MAC_SERIAL_READ).handled = false
      ∧ (is_mac_serial_io ⟨.MAC_SERIAL_WAIT_MAGIC_READ, 0, 1, 5, []⟩ 1
          MAC_SERIAL_NEGATIVE_LBA [] [] .MAC_SERIAL_READ).g.state
        = .MAC_SERIAL_WAIT_MAGIC_READ) := by
  decide

/-- Claim C4, amended: in SectorPending, restricted to accesses whose
sector is not the sentinel and which do not complete a knock: the read
on the claimed drive at the remembered sector writes the length-8 reply
header into the tag buffer, puts the reply marker and the big-endian
remembered sector into block bytes 0-7, advances to Active and returns
true; every other such access leaves the phase unchanged and returns
false. -/
theorem claim_C4_amended (k d ms drv sector : Nat) (fifo tagPtr blkPtr : List Nat)
    (mode : mac_serial_mode)
    (hsec : sector ≠ MAC_SERIAL_NEGATIVE_LBA)
    (hk : (mac_serial_detect_knock_sequence k sector).2 = false) :
    (mode = .MAC_SERIAL_READ ∧ drv = d ∧ sector = ms →
      is_mac_serial_io ⟨.MAC_SERIAL_WAIT_MAGIC_READ, k, d, ms, fifo⟩ drv sector tagPtr
          blkPtr mode
        = ⟨⟨.MAC_SERIAL_WAIT_MAGIC_SECTOR, (mac_serial_detect_knock_sequence k sector).1,
            d, ms, fifo⟩,
            mac_serial_put_header tagPtr 8,
            writeAt blkPtr 0 [70, 85, 74, 73, ms / 2 ^ 24 % 2 ^ 8, ms / 2 ^ 16 % 2 ^ 8,
              ms / 2 ^ 8 % 2 ^ 8, ms % 2 ^ 8], true⟩)
    ∧ (¬ (mode = .MAC_SERIAL_READ ∧ drv = d ∧ sector = ms) →
        (is_mac_serial_io ⟨.MAC_SERIAL_WAIT_MAGIC_READ, k, d, ms, fifo⟩ drv sector tagPtr
            blkPtr mode).g.state = .MAC_SERIAL_WAIT_MAGIC_READ
        ∧ (is_mac_serial_io ⟨.MAC_SERIAL_WAIT_MAGIC_READ, k, d, ms, fifo⟩ drv sector tagPtr
            blkPtr mode).handled = false) := by
  constructor
  · rintro ⟨hmode, hdrv, hsect⟩
    subst hmode
    subst hdrv
    subst hsect
    simp [is_mac_serial_io, hsec, hk]
  · intro hno
    simp only [is_mac_serial_io]
    rw [if_neg hsec]
    simp only [hk, Bool.false_eq_true, if_false]
    rw [if_neg hno]
    exact ⟨rfl, rfl⟩

/-- Claim C4, witness: the amended matching-read behavior at knock 0,
drive 1, remembered sector 5. -/
theorem claim_C4_witness :
    (5 : Nat) ≠ MAC_SERIAL_NEGATIVE_LBA
    ∧ (mac_serial_detect_knock_sequence 0 5).2 = false
    ∧ is_mac_serial_io ⟨.MAC_SERIAL_WAIT_MAGIC_READ, 0, 1, 5, []⟩ 1 5 [] []
        .MAC_SERIAL_READ
      = ⟨⟨.MAC_SERIAL_WAIT_MAGIC_SECTOR, (mac_serial_detect_knock_sequence 0 5).1,
          1, 5, []⟩,
          mac_serial_put_header [] 8,
          writeAt [] 0 [70, 85, 74, 73, 5 / 2 ^ 24 % 2 ^ 8, 5 / 2 ^ 16 % 2 ^ 8,
            5 / 2 ^ 8 % 2 ^ 8, 5 % 2 ^ 8], true⟩ :=
  ⟨by decide, by decide,
    (claim_C4_amended 0 1 5 1 5 [] [] [] .MAC_SERIAL_READ (by decide) (by decide)).1
      ⟨rfl, rfl, rfl⟩⟩

/-- The clamp `if len > cap then cap else len` is the minimum. -/
theorem clamp_eq_min (len cap : Nat) : (if len > cap then cap else len) = min len cap := by
  rw [Nat.min_def]
  split_ifs <;> omega

/-- Claim C7: a channel-handler write returns false exactly when neither
the tag buffer nor the leading 12 bytes of the block decode as a valid
request header; with a valid tag header (preferred) the first
min(len, 512) block bytes are enqueued on the loopback fifo, and with
only a valid block header the min(len, 500) bytes after the header are
enqueued; both accepted cases return true. -/
theorem claim_C7 (tagPtr blkPtr fifo : List Nat) :
    ((mac_serial_magic_sector_io tagPtr blkPtr fifo .MAC_SERIAL_WRITE).handled = false
      ↔ mac_serial_get_header tagPtr = none ∧ mac_serial_get_header blkPtr = none)
    ∧ (∀ len, mac_serial_get_header tagPtr = some len →
        mac_serial_magic_sector_io tagPtr blkPtr fifo .MAC_SERIAL_WRITE
          = ⟨tagPtr, blkPtr, fifoPutData fifo (blkPtr.take (min len 512)), true⟩)
    ∧ (∀ len, mac_serial_get_header tagPtr = none →
        mac_serial_get_header blkPtr = some len →
        mac_serial_magic_sector_io tagPtr blkPtr fifo .MAC_SERIAL_WRITE
          = ⟨tagPtr, blkPtr,
              fifoPutData fifo ((blkPtr.drop MAC_SERIAL_HEADER_LEN).take (min len 500)),
              true⟩) := by
  refine ⟨?_, ?_, ?_⟩
  · cases htag : mac_serial_get_header tagPtr <;>
      cases hblk : mac_serial_get_header blkPtr <;>
      simp [mac_serial_magic_sector_io, mac_serial_handler, htag, hblk]
  · intro len htag
    simp [mac_serial_magic_sector_io, mac_serial_handler, htag, clamp_eq_min]
  · intro len htag hblk
    simp [mac_serial_magic_sector_io, mac_serial_handler, htag, hblk, clamp_eq_min,
      MAC_SERIAL_HEADER_LEN]

/-- Claim C7, witness: a write whose tag buffer carries a valid request
header of length 3 enqueues the first 3 block bytes and is handled. -/
theorem claim_C7_witness :
    mac_serial_get_header [78, 68, 69, 86, 0, 0, 0, 3, 0, 0, 0, 0] = some 3
    ∧ mac_serial_magic_sector_io [78, 68, 69, 86, 0, 0, 0, 3, 0, 0, 0, 0] [1, 2, 3, 4, 5]
        [] .MAC_SERIAL_WRITE
      = ⟨[78, 68, 69, 86, 0, 0, 0, 3, 0, 0, 0, 0], [1, 2, 3, 4, 5],
          fifoPutData [] ([1, 2, 3, 4, 5].take (min 3 512)), true⟩ :=
  ⟨by decide,
    (claim_C7 [78, 68, 69, 86, 0, 0, 0, 3, 0, 0, 0, 0] [1, 2, 3, 4, 5] []).2.1 3
      (by decide)⟩

/-- Claim C8, counterexample: a push of 2001 bytes onto the empty queue
exceeds the capacity of 2000 and is dropped whole, so the following pop
of one byte returns nothing rather than the first
min(len(data), pop_len) = 1 bytes of the data. -/
theorem claim_C8_counterexample :
    (fifoGetData (fifoPutData [] (List.replicate 2001 0)) 1).1
      ≠ (List.replicate 2001 0).take (min (List.replicate 2001 0).length 1) := by
  have key : ∀ l : List Nat, l.length = 2001 →
      (fifoGetData (fifoPutData [] l) 1).1 ≠ l.take (min l.length 1) := by
    intro l hl hcontra
    have h1 : fifoPutData [] l = [] := by
      unfold fifoPutData
      rw [if_neg]
      simp [hl, FIFO_CAPACITY]
    rw [h1] at hcontra
    have h2 := congrArg List.length hcontra
    simp [fifoGetData, hl] at h2
  exact key (List.replicate 2001 0) (List.length_replicate 2001 0)

/-- Claim C8, amended: push appends exactly when the current length plus
the batch length stays within the capacity of 2000 and otherwise leaves
the queue unchanged; and a pop(pop_len) after a push of data onto the
empty queue returns the first min(len(data), pop_len) bytes of the data
in order and decrements the length by that count, provided the push was
within capacity (an oversized push is dropped whole, so the pop returns
nothing). -/
theorem claim_C8_amended (fifo data : List Nat) (n : Nat) :
    (fifo.length + data.length ≤ FIFO_CAPACITY → fifoPutData fifo data = fifo ++ data)
    ∧ (¬ fifo.length + data.length ≤ FIFO_CAPACITY → fifoPutData fifo data = fifo)
    ∧ (data.length ≤ FIFO_CAPACITY →
        (fifoGetData (fifoPutData [] data) n).1 = data.take (min data.length n)
        ∧ (fifoGetData (fifoPutData [] data) n).2.length
            = data.length - min data.length n) := by
  refine ⟨fun h => by simp [fifoPutData, h], fun h => by simp [fifoPutData, h], fun h => ?_⟩
  have hput : fifoPutData [] data = data := by simp [fifoPutData, h]
  exact ⟨by simp [fifoGetData, hput], by simp [fifoGetData, hput]⟩

/-- Claim C8, witness: the amended pop-after-push property at data
[1, 2, 3] and pop length 2. -/
theorem claim_C8_witness :
    ([1, 2, 3] : List Nat).length ≤ FIFO_CAPACITY
    ∧ ((fifoGetData (fifoPutData [] [1, 2, 3]) 2).1
        = [1, 2, 3].take (min ([1, 2, 3] : List Nat).length 2)
      ∧ (fifoGetData (fifoPutData [] [1, 2, 3]) 2).2.length
          = ([1, 2, 3] : List Nat).length - min ([1, 2, 3] : List Nat).length 2) :=
  ⟨by decide, (claim_C8_amended [] [1, 2, 3] 2).2.2 (by decide)⟩

/-- Claim C10: the knock counter starts at 0 and stays in [0, 4] across
every call of is_mac_serial_io, so the index used into the 5-element
knock sequence is always in bounds. -/
theorem claim_C10 (g : MacSerialGlobals) (drv sector : Nat) (tagPtr blkPtr : List Nat)
    (mode : mac_serial_mode) (h : g.knock < 5) :
    mac_serial_init.knock < 5
    ∧ g.knock < mac_serial_knock_sequence.length
    ∧ (is_mac_serial_io g drv sector tagPtr blkPtr mode).g.knock < 5 := by
  obtain ⟨ph, k, d0, ms, fifo⟩ := g
  have hk : k < 5 := h
  have hd := detect_fst_lt k sector hk
  refine ⟨by decide, hk, ?_⟩
  by_cases hs : sector = MAC_SERIAL_NEGATIVE_LBA
  · simp only [is_mac_serial_io, if_pos hs]
    exact hk
  · simp only [is_mac_serial_io, if_neg hs]
    cases hb2 : mac_serial_detect_knock_sequence k sector with
    | mk k2 b =>
      have hk2 : k2 < 5 := by
        rw [hb2] at hd
        exact hd
      cases b <;> cases ph <;> simp [hb2] <;> (try split_ifs) <;> exact hk2

/-- Claim C10, witness: the bound evaluated at knock counter 3 with a
read access at sector 2. -/
theorem claim_C10_witness :
    (⟨.MAC_SERIAL_WAIT_KNOCK, 3, 0, 0, []⟩ : MacSerialGlobals).knock < 5
    ∧ (mac_serial_init.knock < 5
      ∧ (⟨.MAC_SERIAL_WAIT_KNOCK, 3, 0, 0, []⟩ : MacSerialGlobals).knock
          < mac_serial_knock_sequence.length
      ∧ (is_mac_serial_io ⟨.MAC_SERIAL_WAIT_KNOCK, 3, 0, 0, []⟩ 1 2 [] []
          .MAC_SERIAL_READ).g.knock < 5) :=
  ⟨by decide, claim_C10 ⟨.MAC_SERIAL_WAIT_KNOCK, 3, 0, 0, []⟩ 1 2 [] []
    .MAC_SERIAL_READ (by decide)⟩
